import Mathlib

/-!
Verification of the natural-language specification of the `paolo.fin`
Telegram finance bot (`src/main.py`) against a shallow Lean embedding of
its core functions: name normalization, the NLU-result classifier, the
confidence-gated commit path, the bounded per-user context store, the
TTL-bound ledger cache, the ledger mutators (append/clear), the operator
search, the confirmation callback handler, and the allow-list gate of the
command surface.
-/

namespace PaoloFin

/-! ### Python string semantics (`str.lower`, `str.capitalize`, slicing)

The source manipulates Russian (Cyrillic) names, so the case maps must
cover the Cyrillic block in addition to ASCII (Lean's own `Char.toLower`
is ASCII-only). -/

/-- Python `str.lower` on a single character, for the ASCII and Cyrillic
ranges the program uses (`А`–`Я` is U+0410–U+042F, lowercase is +0x20;
`Ё` maps to `ё`). -/
def pyLowerChar (c : Char) : Char :=
  if 'A' ≤ c ∧ c ≤ 'Z' then Char.ofNat (c.toNat + 32)
  else if 'А' ≤ c ∧ c ≤ 'Я' then Char.ofNat (c.toNat + 32)
  else if c = 'Ё' then 'ё'
  else c

/-- Python `str.upper` on a single character, for ASCII and Cyrillic. -/
def pyUpperChar (c : Char) : Char :=
  if 'a' ≤ c ∧ c ≤ 'z' then Char.ofNat (c.toNat - 32)
  else if 'а' ≤ c ∧ c ≤ 'я' then Char.ofNat (c.toNat - 32)
  else if c = 'ё' then 'Ё'
  else c

/-- Python `str.lower`. -/
def pyLower (s : String) : String := String.mk (s.data.map pyLowerChar)

/-- Python `str.capitalize`: first character uppercased, the rest lowercased. -/
def pyCapitalize (s : String) : String :=
  match s.data with
  | [] => ""
  | c :: rest => String.mk (pyUpperChar c :: rest.map pyLowerChar)

/-- Is the first character list a prefix of the second? -/
def charsPrefOf : List Char → List Char → Bool
  | [], _ => true
  | _ :: _, [] => false
  | c :: cs, d :: ds => c = d && charsPrefOf cs ds

/-- Is the first character list a contiguous sublist of the second? -/
def charsWithin (sub : List Char) : List Char → Bool
  | [] => charsPrefOf sub []
  | l@(_ :: rest) => charsPrefOf sub l || charsWithin sub rest

/-- Python `sub in s` (substring containment). -/
def containsSubstr (s sub : String) : Bool := charsWithin sub.data s.data

/-- Python `s.endswith(suffix)`. -/
def strEndsWith (s suffix : String) : Bool :=
  charsPrefOf suffix.data.reverse s.data.reverse

/-- Python `s[:-n]` for `n ≥ 1` (drop the last `n` characters; empty if
`n` exceeds the length). -/
def dropLastN (s : String) (n : Nat) : String :=
  String.mk (s.data.take (s.data.length - n))

/-- Split a character list on every occurrence of `sep` (the pieces do
not contain `sep`; `n` separators yield `n + 1` pieces). -/
def splitChars (sep : Char) : List Char → List (List Char)
  | [] => [[]]
  | c :: rest =>
      let r := splitChars sep rest
      if c = sep then [] :: r
      else (c :: r.headD []) :: r.tail

/-- Python `s.split(sep)` for a one-character separator. -/
def pySplit (s : String) (sep : Char) : List String :=
  (splitChars sep s.data).map String.mk

/-! ### Python `dict` as an association list (insertion-ordered) -/

/-- Python `d.get(k)`: value of the first (unique) binding of `k`. -/
def lookupAssoc : List (String × α) → String → Option α
  | [], _ => none
  | (k', v') :: rest, k => if k' = k then some v' else lookupAssoc rest k

/-- Python `d[k] = v`: update an existing binding in place, else append. -/
def setAssoc : List (String × α) → String → α → List (String × α)
  | [], k, v => [(k, v)]
  | (k', v') :: rest, k, v =>
      if k' = k then (k, v) :: rest else (k', v') :: setAssoc rest k v

theorem lookupAssoc_setAssoc_self (m : List (String × α)) (k : String) (v : α) :
    lookupAssoc (setAssoc m k v) k = some v := by
  induction m with
  | nil => simp [setAssoc, lookupAssoc]
  | cons p rest ih =>
      by_cases h : p.1 = k
      · simp [setAssoc, lookupAssoc, h]
      · simp [setAssoc, lookupAssoc, h, ih]

/-! ### `normalize_name` (src/main.py lines 154–167) -/

/-- The explicit dictionary of known inflected name forms
(src/main.py lines 161–166, local variable `mappings`). -/
def name_mappings : List (String × String) :=
  [("интигаму", "Интигам"), ("интигама", "Интигам"),
   ("балтики", "Балтика"), ("балтике", "Балтика"), ("балтику", "Балтика"),
   ("петрову", "Петров"), ("петрова", "Петров"),
   ("рустаму", "Рустам"), ("рустама", "Рустам")]

/-- Does the lowercased name end in one of the suffixes the heuristic
strips (src/main.py line 157)? -/
def suffixMatches (name_lower : String) : Bool :=
  strEndsWith name_lower "у" || strEndsWith name_lower "а" ||
  strEndsWith name_lower "е" || strEndsWith name_lower "ом" ||
  strEndsWith name_lower "ым"

/-- `normalize_name` (src/main.py lines 154–167): the suffix-stripping
branch is checked FIRST; the `mappings` table is reached only for names
whose lowercase form matches none of the suffixes. -/
def normalize_name (name : String) : String :=
  let name_lower := pyLower name
  if suffixMatches name_lower then
    let base :=
      if strEndsWith name_lower "ом" || strEndsWith name_lower "ым" then
        dropLastN name 2
      else dropLastN name 1
    pyCapitalize base
  else
    match lookupAssoc name_mappings name_lower with
    | some v => v
    | none => pyCapitalize name

/-- Modelled from the spec's words, for comparison with `normalize_name`:
"canonical-form mapping is table-first (explicit dictionary of known
inflected forms → base forms); for unseen tokens, a suffix-stripping
heuristic" — i.e. consult `name_mappings` first and apply the suffix rule
only to tokens absent from the table. -/
def normalize_name_tableFirst (name : String) : String :=
  let name_lower := pyLower name
  match lookupAssoc name_mappings name_lower with
  | some v => v
  | none =>
      if suffixMatches name_lower then
        let base :=
          if strEndsWith name_lower "ом" || strEndsWith name_lower "ым" then
            dropLastN name 2
          else dropLastN name 1
        pyCapitalize base
      else pyCapitalize name

/-- Claim C8 (counterexample): the claim says the table of known inflected
forms is consulted first, and the suffix heuristic only applies to tokens
not in the table. The table maps `"балтику"` to `"Балтика"`, so the claim
predicts `normalize_name "Балтику" = "Балтика"`; the code applies the
suffix rule first and yields `"Балтик"`. -/
theorem normalize_name_not_table_first :
    lookupAssoc name_mappings "балтику" = some "Балтика" ∧
    normalize_name_tableFirst "Балтику" = "Балтика" ∧
    normalize_name "Балтику" = "Балтик" ∧
    ("Балтик" : String) ≠ "Балтика" := by
  refine ⟨by decide, by decide, by decide, by decide⟩

/-- Claim C8 (amended): `normalize_name` applies the suffix-stripping
heuristic first (strip one trailing `у`/`а`/`е` or a trailing `ом`/`ым`,
then capitalize) and consults the table only for tokens not matching any
suffix. In particular `"Интигаму"→"Интигам"` and `"Петрову"→"Петров"` via
the suffix rule (their lowercase forms end in `у`), `"Балтики"→"Балтика"`
via the table (no suffix matches), and the unseen `"Сидорову"` yields
`"Сидоров"` via the suffix rule. -/
theorem normalize_name_suffix_first_examples :
    normalize_name "Интигаму" = "Интигам" ∧
    suffixMatches (pyLower "Интигаму") = true ∧
    normalize_name "Петрову" = "Петров" ∧
    suffixMatches (pyLower "Петрову") = true ∧
    normalize_name "Балтики" = "Балтика" ∧
    suffixMatches (pyLower "Балтики") = false ∧
    lookupAssoc name_mappings (pyLower "Балтики") = some "Балтика" ∧
    normalize_name "Сидорову" = "Сидоров" ∧
    lookupAssoc name_mappings (pyLower "Сидорову") = none := by
  refine ⟨by decide, by decide, by decide, by decide, by decide, by decide,
    by decide, by decide, by decide⟩

/-! ### Ledger rows and the finance intent (src/main.py lines 99–103, 308–336)

A sheet cell holds either a string or a number; `append_row` writes the
amount as a number and every other column as a string. The header occupies
row 1 of the sheet. -/

/-- One spreadsheet cell: a string or an (integer) number. -/
inductive Cell
  | s (v : String)
  | i (v : Int)
deriving DecidableEq, Repr

/-- One ledger row: the fixed 6-column layout
`[Дата, Тип операции, Категория, Описание/Получатель, Сумма, Комментарий]`. -/
abbrev Row := List Cell

/-- The header row created on first connection (src/main.py line 103). -/
def headerRow : Row :=
  [.s "Дата", .s "Тип операции", .s "Категория",
   .s "Описание/Получатель", .s "Сумма", .s "Комментарий"]

/-- A classified finance intent: the `"type": "finance"` dict returned by
the NLU capability (src/main.py lines 200–209). `comment` and `confidence`
are read with `.get` in the source, so they may be absent. -/
structure FinanceIntent where
  operation_type : String
  amount : Int
  category : String
  description : String
  comment : Option String := none
  confidence : Option ℚ := none
deriving DecidableEq, Repr

/-- The row built by `add_finance_record` (src/main.py lines 311–318). -/
def mkRow (d : FinanceIntent) (date : String) : Row :=
  [.s date, .s d.operation_type, .s d.category, .s d.description,
   .i d.amount, .s (d.comment.getD "")]

/-- Insert a thousands separator `,` after every group of three digits,
counted from the right (`digits` is most-significant first). -/
def commaGroups (digits : List Char) : List Char :=
  (((digits.reverse.enum.map
      (fun p => if p.1 % 3 = 2 ∧ p.1 + 1 ≠ digits.length
                then [p.2, ','] else [p.2])).flatten).reverse)

/-- Python `f"{n:,.0f}"` for an integral amount: optional minus sign, then
comma-separated digit groups. -/
def formatAmount (n : Int) : String :=
  String.mk ((if n < 0 then ['-'] else []) ++
    commaGroups (Nat.toDigits 10 n.natAbs))

/-- The rendered context line
`f"{description}: {amount:,.0f} ₽ ({category})"`
(src/main.py line 298). -/
def context_line (d : FinanceIntent) : String :=
  d.description ++ ": " ++ formatAmount d.amount ++ " ₽ (" ++ d.category ++ ")"

/-! ### Ledger cache (src/main.py lines 63–66, 379–393) -/

/-- The module-level cache pair `SHEETS_CACHE` / `CACHE_TIMESTAMP`
(src/main.py lines 64–65). Timestamps are seconds. -/
structure CacheState where
  snapshot : Option (List Row)
  timestamp : Option Int
deriving DecidableEq, Repr

/-- `CACHE_TIMEOUT = timedelta(minutes=5)` (src/main.py line 66), in seconds. -/
def CACHE_TIMEOUT : Int := 300

/-- `get_cached_records` (src/main.py lines 379–387): serve the held
snapshot unless it is absent or older than the timeout, else fetch the
remote record set (`remote` stands for `finance_sheet.get_all_records()`).
Returns the records, the new cache state, and whether a remote fetch
happened. -/
def get_cached_records (st : CacheState) (now : Int) (remote : List Row) :
    List Row × CacheState × Bool :=
  match st.snapshot, st.timestamp with
  | some s, some t =>
      if now - t > CACHE_TIMEOUT then (remote, ⟨some remote, some now⟩, true)
      else (s, ⟨some s, some t⟩, false)
  | _, _ => (remote, ⟨some remote, some now⟩, true)

/-- `invalidate_cache` (src/main.py lines 389–393). -/
def invalidate_cache : CacheState := ⟨none, none⟩

/-! ### Process-wide mutable state

`USER_LAST_OPERATIONS`, `USER_CONTEXT`, the persisted `user_context.json`
file, the remote sheet, and the cache (src/main.py lines 63–66, 134–137). -/

/-- One `USER_LAST_OPERATIONS` entry (src/main.py lines 323–328). -/
structure LastOp where
  data : FinanceIntent
  row : Nat
  timestamp : Int
deriving DecidableEq, Repr

/-- The bot's shared mutable state. `ledger` is the full remote sheet
(header at position 1); `savedFile` is the content of
`user_context.json`, `none` when the file does not exist. -/
structure BotState where
  ledger : List Row
  userContext : List (String × List String)
  savedFile : Option (List (String × List String))
  lastOps : List (String × LastOp)
  cache : CacheState
deriving DecidableEq, Repr

/-! ### Context store and ledger mutators (src/main.py lines 292–377) -/

/-- Keep only the last 10 entries (src/main.py lines 303–304). -/
def trunc10 (l : List String) : List String :=
  if l.length > 10 then l.drop (l.length - 10) else l

/-- `update_user_context` (src/main.py lines 292–306): initialize the
user's list if absent, append the rendered line, truncate to the last 10,
and persist the whole store (`save_context`). -/
def update_user_context (uid : String) (d : FinanceIntent) (st : BotState) :
    BotState :=
  let cur := (lookupAssoc st.userContext uid).getD []
  let ctxList := trunc10 (cur ++ [context_line d])
  let ctx' := setAssoc st.userContext uid ctxList
  { st with userContext := ctx', savedFile := some ctx' }

/-- `add_finance_record` (src/main.py lines 308–336): append the row to
the remote sheet, invalidate the cache, record the last operation (its
`row` field is `len(get_cached_records())`, which re-fetches and
repopulates the cache), then update the user context. `remoteOk` models
whether the remote `append_row` call succeeds; when it raises, the
`except` branch returns `False` having mutated nothing. -/
def add_finance_record (d : FinanceIntent) (remoteOk : Bool) (uid : String)
    (now : Int) (date : String) (st : BotState) : Bool × BotState :=
  if remoteOk then
    let ledger' := st.ledger ++ [mkRow d date]
    let st1 : BotState := { st with ledger := ledger', cache := invalidate_cache }
    let fetched := get_cached_records st1.cache now (ledger'.drop 1)
    let st2 : BotState :=
      { st1 with cache := fetched.2.1,
                 lastOps := setAssoc st1.lastOps uid ⟨d, fetched.1.length, now⟩ }
    (true, update_user_context uid d st2)
  else (false, st)

/-- gspread `delete_rows(start, stop)`: remove the rows whose 1-based
index lies in `[start, stop]` (both bounds inclusive). -/
def delete_rows (rows : List Row) (start stop : Nat) : List Row :=
  (rows.enum.filter
    (fun p => decide ¬(start ≤ p.1 + 1 ∧ p.1 + 1 ≤ stop))).map Prod.snd

/-- `clear_table` (src/main.py lines 365–377): read all rows
(`get_all_values`, header included); when more than one row exists, call
`delete_rows(2, len(records) - 1)`; invalidate the cache; return success. -/
def clear_table (st : BotState) : Bool × BotState :=
  let records := st.ledger
  let ledger' :=
    if records.length > 1 then delete_rows records 2 (records.length - 1)
    else records
  (true, { st with ledger := ledger', cache := invalidate_cache })

/-! ### The confidence-gated commit path
(`process_analysis_result`, src/main.py lines 637–692) -/

/-- What `process_analysis_result` does with a finance intent. -/
inductive Outcome
  | askConfirm
  | committed
  | commitFailed
deriving DecidableEq, Repr

/-- The `"finance"` branch of `process_analysis_result`
(src/main.py lines 643–682): `confidence = analysis.get('confidence', 1.0)`;
below 0.7 the code sends a confirmation prompt and returns without
touching any state; otherwise it calls `add_finance_record`. -/
def process_finance (a : FinanceIntent) (remoteOk : Bool) (uid : String)
    (now : Int) (date : String) (st : BotState) : Outcome × BotState :=
  if a.confidence.getD 1 < (7 / 10 : ℚ) then (Outcome.askConfirm, st)
  else
    let r := add_finance_record a remoteOk uid now date st
    if r.1 then (Outcome.committed, r.2) else (Outcome.commitFailed, r.2)

/-- What the `confirm_` branch of `handle_callback_query` replies with. -/
inductive ConfirmOutcome
  | cleared
  | clearError
  | cancelled
  | unknownConfirm
deriving DecidableEq, Repr

/-- The `confirm_` branch of `handle_callback_query`
(src/main.py lines 617–630): split the callback data on `_`; only the
pair `choice = "yes"` with `action = "clear"` runs `clear_table`; a
`"no"` cancels; everything else — including `confirm_finance_yes` —
falls through to "Неизвестное подтверждение". -/
def handle_confirm (data : String) (st : BotState) : ConfirmOutcome × BotState :=
  let parts := pySplit data '_'
  let action := parts.getD 1 ""
  let choice := parts.getD 2 ""
  if choice = "yes" ∧ action = "clear" then
    let r := clear_table st
    if r.1 then (ConfirmOutcome.cleared, r.2) else (ConfirmOutcome.clearError, r.2)
  else if choice = "no" then (ConfirmOutcome.cancelled, st)
  else (ConfirmOutcome.unknownConfirm, st)

/-! ### Helper lemmas on the bounded context list -/

theorem trunc10_length (l : List String) : (trunc10 l).length = min l.length 10 := by
  unfold trunc10
  by_cases h : l.length > 10
  · simp [h]; omega
  · simp [h]; omega

theorem trunc10_getLast_concat (l : List String) (a : String) :
    (trunc10 (l ++ [a])).getLast? = some a := by
  unfold trunc10
  by_cases h : (l ++ [a]).length > 10
  · have hle : (l ++ [a]).length - 10 ≤ l.length := by
      simp only [List.length_append, List.length_singleton]; omega
    simp only [h, if_true]
    rw [List.drop_append_of_le_length hle, List.getLast?_concat]
  · simp only [h, if_false, List.getLast?_concat]

/-! ### Claims about the commit pipeline -/

/-- Claim C1: a classified finance intent whose confidence field is
present and at least 0.7 is committed: exactly one row (`mkRow`) is
appended to the remote ledger, the acting user's context gains the
rendered line as its (one) new last element, and the context list length
is `min (old + 1) 10`, hence never exceeds 10. (`remoteOk = true`: the
remote append succeeds; the failure path is claim C6.) -/
theorem high_confidence_commit_appends_once (a : FinanceIntent) (c : ℚ)
    (uid : String) (now : Int) (date : String) (st : BotState)
    (hc : a.confidence = some c) (h : (7 / 10 : ℚ) ≤ c) :
    (process_finance a true uid now date st).1 = Outcome.committed ∧
    (process_finance a true uid now date st).2.ledger
        = st.ledger ++ [mkRow a date] ∧
    lookupAssoc (process_finance a true uid now date st).2.userContext uid
        = some (trunc10 (((lookupAssoc st.userContext uid).getD [])
            ++ [context_line a])) ∧
    (trunc10 (((lookupAssoc st.userContext uid).getD [])
        ++ [context_line a])).length
        = min (((lookupAssoc st.userContext uid).getD []).length + 1) 10 ∧
    (trunc10 (((lookupAssoc st.userContext uid).getD [])
        ++ [context_line a])).length ≤ 10 ∧
    (trunc10 (((lookupAssoc st.userContext uid).getD [])
        ++ [context_line a])).getLast? = some (context_line a) := by
  have hnot : ¬ a.confidence.getD 1 < (7 / 10 : ℚ) := by
    rw [hc]; simpa using h
  refine ⟨?_, ?_, ?_, ?_, ?_, ?_⟩
  · simp [process_finance, hnot, add_finance_record]
  · simp [process_finance, hnot, add_finance_record, update_user_context]
  · simp [process_finance, hnot, add_finance_record, update_user_context,
      lookupAssoc_setAssoc_self]
  · rw [trunc10_length]; simp
  · rw [trunc10_length]; omega
  · exact trunc10_getLast_concat _ _

/-- Claim C1 witness: the theorem applied to a concrete intent
(confidence 0.9) and a concrete state holding the header plus one row and
a one-line context for user `"42"`. -/
theorem high_confidence_commit_appends_once_witness :
    ((⟨"Расход", -40000, "Зарплаты сотрудникам", "Петров", some "",
        some (9 / 10)⟩ : FinanceIntent).confidence = some (9 / 10 : ℚ)
      ∧ (7 / 10 : ℚ) ≤ 9 / 10) ∧
    ((process_finance
        ⟨"Расход", -40000, "Зарплаты сотрудникам", "Петров", some "",
          some (9 / 10)⟩ true "42" 0 "01.01.2025"
        ⟨[headerRow], [("42", ["Интигам: -5,000 ₽ (Оплата поставщику)"])],
          none, [], ⟨none, none⟩⟩).1 = Outcome.committed ∧
      (process_finance
        ⟨"Расход", -40000, "Зарплаты сотрудникам", "Петров", some "",
          some (9 / 10)⟩ true "42" 0 "01.01.2025"
        ⟨[headerRow], [("42", ["Интигам: -5,000 ₽ (Оплата поставщику)"])],
          none, [], ⟨none, none⟩⟩).2.ledger
        = [headerRow] ++ [mkRow
            ⟨"Расход", -40000, "Зарплаты сотрудникам", "Петров", some "",
              some (9 / 10)⟩ "01.01.2025"] ∧
      lookupAssoc (process_finance
        ⟨"Расход", -40000, "Зарплаты сотрудникам", "Петров", some "",
          some (9 / 10)⟩ true "42" 0 "01.01.2025"
        ⟨[headerRow], [("42", ["Интигам: -5,000 ₽ (Оплата поставщику)"])],
          none, [], ⟨none, none⟩⟩).2.userContext "42"
        = some (trunc10 (((lookupAssoc
            [("42", ["Интигам: -5,000 ₽ (Оплата поставщику)"])] "42").getD [])
            ++ [context_line
              ⟨"Расход", -40000, "Зарплаты сотрудникам", "Петров", some "",
                some (9 / 10)⟩])) ∧
      (trunc10 (((lookupAssoc
          [("42", ["Интигам: -5,000 ₽ (Оплата поставщику)"])] "42").getD [])
          ++ [context_line
            ⟨"Расход", -40000, "Зарплаты сотрудникам", "Петров", some "",
              some (9 / 10)⟩])).length
        = min (((lookupAssoc
            [("42", ["Интигам: -5,000 ₽ (Оплата поставщику)"])] "42").getD
              []).length + 1) 10 ∧
      (trunc10 (((lookupAssoc
          [("42", ["Интигам: -5,000 ₽ (Оплата поставщику)"])] "42").getD [])
          ++ [context_line
            ⟨"Расход", -40000, "Зарплаты сотрудникам", "Петров", some "",
              some (9 / 10)⟩])).length ≤ 10 ∧
      (trunc10 (((lookupAssoc
          [("42", ["Интигам: -5,000 ₽ (Оплата поставщику)"])] "42").getD [])
          ++ [context_line
            ⟨"Расход", -40000, "Зарплаты сотрудникам", "Петров", some "",
              some (9 / 10)⟩])).getLast?
        = some (context_line
            ⟨"Расход", -40000, "Зарплаты сотрудникам", "Петров", some "",
              some (9 / 10)⟩)) :=
  ⟨⟨rfl, by norm_num⟩,
   high_confidence_commit_appends_once _ _ "42" 0 "01.01.2025" _ rfl
     (by norm_num)⟩

/-- Claim C6: when the remote ledger write fails, `add_finance_record`
returns `False` and the entire shared state — ledger view, user context,
persisted context file, last-operation pointers, cache — is unchanged. -/
theorem add_finance_record_failure_no_mutation (a : FinanceIntent)
    (uid : String) (now : Int) (date : String) (st : BotState) :
    add_finance_record a false uid now date st = (false, st) := by
  simp [add_finance_record]

/-- Claim C10: a finance intent with no confidence field at all is gated
as if its confidence were 1.0 (`analysis.get('confidence', 1.0)`): the
gate never asks for confirmation, the outcome equals that of the same
intent with confidence 1.0, and with a successful remote write the record
is committed immediately. -/
theorem missing_confidence_commits_immediately (ot : String) (amt : Int)
    (cat desc : String) (cm : Option String) (uid : String) (now : Int)
    (date : String) (st : BotState) :
    (process_finance ⟨ot, amt, cat, desc, cm, none⟩ true uid now date st).1
        = Outcome.committed ∧
    (∀ b : Bool,
      (process_finance ⟨ot, amt, cat, desc, cm, none⟩ b uid now date st).1
        ≠ Outcome.askConfirm) ∧
    (∀ b : Bool,
      (process_finance ⟨ot, amt, cat, desc, cm, none⟩ b uid now date st).1
        = (process_finance ⟨ot, amt, cat, desc, cm, some 1⟩ b uid now date st).1) := by
  have hnot : ¬ ((1 : ℚ) < 7 / 10) := by norm_num
  refine ⟨?_, ?_, ?_⟩
  · simp [process_finance, hnot, add_finance_record]
  · intro b
    cases b <;> simp [process_finance, hnot, add_finance_record]
  · intro b
    cases b <;> simp [process_finance, hnot, add_finance_record]

/-- Claim C2: below the 0.7 threshold no row is appended immediately —
the flow stops at the confirmation prompt with the state untouched — but
the `Confirmed` transition is broken: the callback handler only knows
`confirm_clear_yes`, so the `confirm_finance_yes` reply produced by the
finance confirmation buttons falls through to "Неизвестное подтверждение"
and never appends the row; `confirm_finance_no` cancels with no row, as
claimed. -/
theorem confirm_finance_yes_never_commits :
    (∀ (b : Bool) (uid : String) (now : Int) (date : String) (st : BotState),
      process_finance
        ⟨"Расход", -100, "-", "Тест", some "", some (1 / 2)⟩ b uid now date st
        = (Outcome.askConfirm, st)) ∧
    (∀ st : BotState,
      handle_confirm "confirm_finance_yes" st
        = (ConfirmOutcome.unknownConfirm, st)) ∧
    (∀ st : BotState,
      handle_confirm "confirm_finance_no" st = (ConfirmOutcome.cancelled, st)) := by
  refine ⟨?_, ?_, ?_⟩
  · intro b uid now date st
    have hlt : ((⟨"Расход", -100, "-", "Тест", some "",
        some (1 / 2)⟩ : FinanceIntent).confidence.getD 1) < (7 / 10 : ℚ) := by
      show (1 / 2 : ℚ) < 7 / 10
      norm_num
    unfold process_finance
    rw [if_pos hlt]
  · intro st; rfl
  · intro st; rfl

/-- Claim C4: `clear_table` calls `delete_rows(2, len(records) - 1)`,
whose bounds are inclusive, so on a ledger with a header and two data
rows it deletes only row 2: the last data row survives, contradicting
"after a successful clear the remote ledger contains only the header
row". The cache-invalidation half of the claim does hold. -/
theorem clear_table_leaves_last_row :
    clear_table ⟨[headerRow,
        [.s "01.01.2025", .s "Расход", .s "-", .s "А", .i (-1), .s ""],
        [.s "02.01.2025", .s "Расход", .s "-", .s "Б", .i (-2), .s ""]],
      [], none, [], ⟨some [], some 0⟩⟩
      = (true, ⟨[headerRow,
          [.s "02.01.2025", .s "Расход", .s "-", .s "Б", .i (-2), .s ""]],
        [], none, [], invalidate_cache⟩) ∧
    ([headerRow,
        [Cell.s "02.01.2025", Cell.s "Расход", Cell.s "-", Cell.s "Б",
         Cell.i (-2), Cell.s ""]] : List Row) ≠ [headerRow] := by
  exact ⟨by decide, by decide⟩

/-! ### Claims about the cache -/

/-- Claim C5: `invalidate()` followed by `get()` performs exactly one
fresh remote fetch (the fetch flag of the single `get` is `true` and the
fetched remote set is returned and held); and any `get()` at a time
strictly within the TTL window returns the identical held snapshot, does
not fetch, and leaves the cache state unchanged — so repeated gets within
the window keep returning the same snapshot. -/
theorem cache_invalidate_get_and_ttl_fresh :
    (∀ (now : Int) (remote : List Row),
      get_cached_records invalidate_cache now remote
        = (remote, ⟨some remote, some now⟩, true)) ∧
    (∀ (s remote : List Row) (t now : Int), now - t < CACHE_TIMEOUT →
      get_cached_records ⟨some s, some t⟩ now remote
        = (s, ⟨some s, some t⟩, false)) := by
  constructor
  · intro now remote; rfl
  · intro s remote t now h
    have hnot : ¬ now - t > CACHE_TIMEOUT := by omega
    simp [get_cached_records, hnot]

/-- Claim C5 witness: a snapshot fetched at t = 100 is served unchanged,
with no remote fetch, at now = 200 (elapsed 100 < 300 = TTL). -/
theorem cache_invalidate_get_and_ttl_fresh_witness :
    ((200 : Int) - 100 < CACHE_TIMEOUT) ∧
    get_cached_records ⟨some [headerRow], some 100⟩ 200
        [headerRow, [Cell.i 1]]
      = ([headerRow], ⟨some [headerRow], some 100⟩, false) :=
  ⟨by decide,
   cache_invalidate_get_and_ttl_fresh.2 [headerRow]
     [headerRow, [Cell.i 1]] 100 200 (by decide)⟩

/-! ### Operator search (`advanced_search`, src/main.py lines 874–951) -/

/-- Python whitespace as stripped by `int(str)`. -/
def isPySpace (c : Char) : Bool :=
  c = ' ' || c = '\t' || c = '\n' || c = '\r' || c = '\x0b' || c = '\x0c'

/-- Strip leading and trailing Python whitespace from a character list. -/
def stripSpaces (l : List Char) : List Char :=
  ((l.dropWhile isPySpace).reverse.dropWhile isPySpace).reverse

/-- After an initial digit: digits, possibly separated by single
underscores (Python allows `50_000`; underscores may not trail or
double). -/
def digitsTail : List Char → Bool
  | [] => true
  | '_' :: c :: rest => c.isDigit && digitsTail rest
  | '_' :: [] => false
  | c :: rest => c.isDigit && digitsTail rest

/-- A valid unsigned Python integer literal body: at least one digit,
underscores only between digits. -/
def digitsBody : List Char → Bool
  | [] => false
  | c :: rest => c.isDigit && digitsTail rest

/-- Numeric value of a digit list (underscores skipped). -/
def digitsVal (l : List Char) : Nat :=
  (l.filter (· ≠ '_')).foldl (fun a c => a * 10 + (c.toNat - 48)) 0

/-- Python `int(s)`: strip whitespace, optional sign, digit body; `none`
models the `ValueError` raised on anything else — in particular on a
trailing non-numeric token such as `"50000 петров"`. -/
def pyIntLit? (s : String) : Option Int :=
  let l := stripSpaces s.data
  match l with
  | '+' :: rest => if digitsBody rest then some (digitsVal rest) else none
  | '-' :: rest => if digitsBody rest then some (-(digitsVal rest : Int)) else none
  | rest => if digitsBody rest then some (digitsVal rest) else none

/-- The numeric view of a row's `Сумма` column after
`pd.to_numeric(..., errors='coerce')` (src/main.py line 913): numbers
stay, numeric strings parse, anything else becomes NaN (`none`), and NaN
fails every comparison. -/
def amountOf? (r : Row) : Option Int :=
  match r.get? 4 with
  | some (Cell.i v) => some v
  | some (Cell.s str) => pyIntLit? str
  | none => none

/-- The rows whose amount passes `Сумма > thresh`. -/
def thresholdGtFilter (t : Int) (records : List Row) : List Row :=
  records.filter (fun r =>
    match amountOf? r with
    | some a => decide (t < a)
    | none => false)

/-- The rows whose amount passes `Сумма < thresh`. -/
def thresholdLtFilter (t : Int) (records : List Row) : List Row :=
  records.filter (fun r =>
    match amountOf? r with
    | some a => decide (a < t)
    | none => false)

/-- The filter stage of `advanced_search` (src/main.py lines 916–925) on
the lowercased joined query: the whole-row substring mask (`rowMatch`
stands for `search_query in str(row).lower()`, pandas' row
stringification being outside the model) is computed first, then — when
the query contains `>` or `<` — REPLACED by the amount threshold mask,
where the threshold is `int(search_query.split('>')[1])`: everything
after the first operator must parse as one integer, else `int` raises
`ValueError` and the `except` reports a search error (`Except.error`). -/
def advanced_search_core (q : String) (rowMatch : Row → Bool)
    (records : List Row) : Except Unit (List Row) :=
  let base := records.filter rowMatch
  if q.data.contains '>' then
    match pyIntLit? ((pySplit q '>').getD 1 "") with
    | some thresh => Except.ok (thresholdGtFilter thresh records)
    | none => Except.error ()
  else if q.data.contains '<' then
    match pyIntLit? ((pySplit q '<').getD 1 "") with
    | some thresh => Except.ok (thresholdLtFilter thresh records)
    | none => Except.error ()
  else Except.ok base

/-- `advanced_search` entry: `search_query = " ".join(args).lower()`
(src/main.py line 902), then the filter stage. -/
def advanced_search (args : List String) (rowMatch : Row → Bool)
    (records : List Row) : Except Unit (List Row) :=
  advanced_search_core (pyLower (String.intercalate " " args)) rowMatch records

/-- A sample expense row with amount 60000. -/
def row60000 : Row :=
  [.s "03.01.2025", .s "Пополнение", .s "-", .s "петров", .i 60000, .s ""]

/-- A sample expense row with amount 10000. -/
def row10000 : Row :=
  [.s "04.01.2025", .s "Расход", .s "Материалы", .s "цемент", .i 10000, .s ""]

/-- Claim C3 (counterexample): on the claim's own example query
`">50000 Петров"` the result is NOT the threshold-filtered set: the code
computes `int("50000 петров")`, which raises `ValueError`, so the search
aborts with an error and returns no records, although a record with
amount 60000 passes the claimed threshold filter. -/
theorem search_threshold_with_token_errors :
    advanced_search [">50000", "Петров"] (fun _ => true) [row60000, row10000]
        = Except.error () ∧
    thresholdGtFilter 50000 [row60000, row10000] = [row60000] ∧
    (Except.error () : Except Unit (List Row)) ≠ Except.ok [row60000] := by
  refine ⟨by rfl, by decide, by simp⟩

/-- Claim C3 (amended): when the query contains `>` (or, `>` being
absent, `<`) and the ENTIRE remainder after the first such operator
parses as one integer, the result set is exactly the amount-threshold
filter — it replaces, and never combines with, the substring mask
(`rowMatch` does not occur in the result); but when extra tokens follow
the number (as in `">50000 Петров"`), `int()` raises and the search
reports an error instead of any result set. -/
theorem search_threshold_parse_behavior :
    (∀ (q : String) (rowMatch : Row → Bool) (records : List Row) (t : Int),
      q.data.contains '>' = true →
      pyIntLit? ((pySplit q '>').getD 1 "") = some t →
      advanced_search_core q rowMatch records
        = Except.ok (thresholdGtFilter t records)) ∧
    (∀ (q : String) (rowMatch : Row → Bool) (records : List Row) (t : Int),
      q.data.contains '>' = false → q.data.contains '<' = true →
      pyIntLit? ((pySplit q '<').getD 1 "") = some t →
      advanced_search_core q rowMatch records
        = Except.ok (thresholdLtFilter t records)) ∧
    (∀ (q : String) (rowMatch : Row → Bool) (records : List Row),
      q.data.contains '>' = true →
      pyIntLit? ((pySplit q '>').getD 1 "") = none →
      advanced_search_core q rowMatch records = Except.error ()) := by
  refine ⟨?_, ?_, ?_⟩
  · intro q rowMatch records t hq hp
    unfold advanced_search_core
    rw [hq, hp]; rfl
  · intro q rowMatch records t hq hq' hp
    unfold advanced_search_core
    rw [hq, hq', hp]; rfl
  · intro q rowMatch records hq hp
    unfold advanced_search_core
    rw [hq, hp]; rfl

/-- Claim C3 witness: the pure query `">50000"` (threshold last, nothing
after the number) filters exactly on `amount > 50000`, even under a
substring mask that matches every row. -/
theorem search_threshold_parse_behavior_witness :
    (">50000" : String).data.contains '>' = true ∧
    pyIntLit? ((pySplit ">50000" '>').getD 1 "") = some 50000 ∧
    advanced_search_core ">50000" (fun _ => true) [row60000, row10000]
      = Except.ok (thresholdGtFilter 50000 [row60000, row10000]) :=
  ⟨by decide, by decide,
   search_threshold_parse_behavior.1 ">50000" (fun _ => true)
     [row60000, row10000] 50000 (by decide) (by decide)⟩

/-! ### Command router and classifier
(`parse_voice_command`, src/main.py lines 395–427;
`analyze_message_with_ai`, lines 169–290) -/

/-- Does the lowercased text contain any of the phrases? -/
def anyPhrase (s : String) (ps : List String) : Bool :=
  ps.any (fun p => containsSubstr s p)

/-- `parse_voice_command` (src/main.py lines 395–427): ordered phrase-set
predicates, first match wins; `none` falls through to the NLU call. -/
def parse_voice_command (text : String) : Option String :=
  let tl := pyLower text
  if anyPhrase tl ["кому платили", "анализ получателей", "по получателям",
      "кому больше", "топ получателей"] then some "recipients"
  else if anyPhrase tl ["анализ поставщика", "по поставщику", "история с",
      "поставщик"] then some "suppliers"
  else if anyPhrase tl ["по категориям", "категории", "расходы по"] then
    some "categories"
  else if anyPhrase tl ["анализ", "аналитика", "отчет", "покажи траты",
      "сколько потратили"] then some "analytics"
  else if anyPhrase tl ["найди", "найти", "поиск", "покажи операции",
      "когда платили"] then some "search"
  else if anyPhrase tl ["история", "последние операции", "что было"] then
    some "history"
  else if anyPhrase tl ["бэкап", "резервная копия", "сохрани", "backup"] then
    some "backup"
  else none

/-- The JSON object returned by the NLU capability, viewed through the
fields the program reads; every field is optional because the source
never validates the parsed dict. -/
structure NluDict where
  type : Option String := none
  operation_type : Option String := none
  amount : Option Int := none
  category : Option String := none
  description : Option String := none
  comment : Option String := none
  confidence : Option ℚ := none
  message : Option String := none
  suggestions : Option (List String) := none
  command : Option String := none
  params : Option String := none
deriving DecidableEq, Repr

/-- The fixed degradation dict built when `json.loads` raises
(src/main.py line 286). -/
def clarificationOnParseError : NluDict :=
  { type := some "clarification",
    message := some "Ошибка анализа. Попробуйте переформулировать.",
    suggestions := some [] }

/-- `analyze_message_with_ai` after the model call (src/main.py lines
169–290): the router runs first and short-circuits the NLU; otherwise
`parsed` is the outcome of `json.loads` on the (fence-stripped) response —
`Except.error` models `JSONDecodeError`, degraded to the fixed
clarification; a successfully parsed dict is returned AS IS, with no
check that required fields are present. -/
def analyze_message (text : String) (parsed : Except Unit NluDict) : NluDict :=
  match parse_voice_command text with
  | some cmd =>
      { type := some "voice_command", command := some cmd, params := some text }
  | none =>
      match parsed with
      | Except.error _ => clarificationOnParseError
      | Except.ok d => d

/-- A finance-typed NLU response missing every required field. -/
def financeMissingFields : NluDict := { type := some "finance" }

/-- Claim C9 (counterexample): an NLU response that parses as JSON but is
missing required fields is NOT degraded to a `Clarification`: the
classifier returns the dict unvalidated (here a `"finance"`-typed dict
with no `operation_type`/`amount`/..., which `process_analysis_result`
will then subscript, raising `KeyError` past the classification
boundary). -/
theorem missing_fields_not_clarification :
    parse_voice_command "ghjk" = none ∧
    analyze_message "ghjk" (Except.ok financeMissingFields)
        = financeMissingFields ∧
    financeMissingFields.type ≠ some "clarification" ∧
    financeMissingFields.operation_type = none ∧
    financeMissingFields.amount = none := by
  refine ⟨by decide, by rfl, by decide, by rfl, by rfl⟩

/-- Claim C9 (amended): for text the router does not intercept, a
malformed-JSON NLU response degrades to the fixed apology
`Clarification` with an empty suggestions list and no exception escapes;
but a well-formed JSON response missing required fields is returned
unvalidated, exactly as parsed. -/
theorem classifier_parse_failure_behavior (text : String)
    (h : parse_voice_command text = none) :
    analyze_message text (Except.error ()) = clarificationOnParseError ∧
    (∀ d : NluDict, analyze_message text (Except.ok d) = d) := by
  constructor
  · unfold analyze_message
    rw [h]
  · intro d
    unfold analyze_message
    rw [h]

/-- Claim C9 witness: the amended behavior at the concrete neutral text
`"ghjk"` (matched by no router phrase). -/
theorem classifier_parse_failure_behavior_witness :
    parse_voice_command "ghjk" = none ∧
    (analyze_message "ghjk" (Except.error ()) = clarificationOnParseError ∧
     (∀ d : NluDict, analyze_message "ghjk" (Except.ok d) = d)) :=
  ⟨by decide, classifier_parse_failure_behavior "ghjk" (by decide)⟩

/-! ### The allow-list gate over the command surface
(src/main.py lines 510–515, 694–699, 734–739, 750–782, 783–872, 874–905,
953–960, 583–591, 1068–1073, 1104–1115) -/

/-- The gate expression `ALLOWED_USERS and user_id not in ALLOWED_USERS`
(a nonempty allow-list is truthy; members pass). -/
def pyGateRejects (allowedUsers : List String) (uid : String) : Bool :=
  !allowedUsers.isEmpty && !allowedUsers.contains uid

/-- Did an entry point reject the caller, or proceed into its body? -/
inductive EntryOutcome
  | rejected
  | proceeded
deriving DecidableEq, Repr

/-- `/start` (src/main.py lines 694–699): gate first. -/
def start_entry (allowedUsers : List String) (uid : String) : EntryOutcome :=
  if pyGateRejects allowedUsers uid then .rejected else .proceeded

/-- Free-text messages, `handle_message` (src/main.py lines 734–739):
gate first. -/
def handle_message_entry (allowedUsers : List String) (uid : String) :
    EntryOutcome :=
  if pyGateRejects allowedUsers uid then .rejected else .proceeded

/-- Voice messages, `handle_voice` (src/main.py lines 510–515): gate first. -/
def handle_voice_entry (allowedUsers : List String) (uid : String) :
    EntryOutcome :=
  if pyGateRejects allowedUsers uid then .rejected else .proceeded

/-- `/clear_table`, `clear_table_command` (src/main.py lines 1068–1077):
gate first, then only a confirmation prompt. -/
def clear_table_command_entry (allowedUsers : List String) (uid : String) :
    EntryOutcome :=
  if pyGateRejects allowedUsers uid then .rejected else .proceeded

/-- `/search`, `advanced_search` (src/main.py lines 874–951): the handler
performs NO allow-list check — with arguments it reads the cache (a fetch
on a cold cache mutates the cache state) and runs the query engine for
any caller. The unused gate parameters mirror that `user_id` is available
to the handler but never consulted. -/
def advanced_search_entry (_allowedUsers : List String) (_uid : String)
    (args : List String) (rowMatch : Row → Bool) (st : BotState) (now : Int) :
    EntryOutcome × BotState × Option (Except Unit (List Row)) :=
  if args.isEmpty then (.proceeded, st, none)
  else
    let fetched := get_cached_records st.cache now (st.ledger.drop 1)
    (.proceeded, { st with cache := fetched.2.1 },
     some (advanced_search args rowMatch fetched.1))

/-- `/history`, `show_context_history` (src/main.py lines 750–781): no
allow-list check; reads the user context and the cache. -/
def show_context_history_entry (_allowedUsers : List String) (uid : String)
    (st : BotState) (now : Int) : EntryOutcome × BotState × List String :=
  let recentOps := (lookupAssoc st.userContext uid).getD []
  let fetched := get_cached_records st.cache now (st.ledger.drop 1)
  (.proceeded, { st with cache := fetched.2.1 }, recentOps)

/-- `/analytics`, `show_analytics` (src/main.py lines 783–872): no
allow-list check; reads the cache. -/
def show_analytics_entry (_allowedUsers : List String) (_uid : String)
    (st : BotState) (now : Int) : EntryOutcome × BotState :=
  let fetched := get_cached_records st.cache now (st.ledger.drop 1)
  (.proceeded, { st with cache := fetched.2.1 })

/-- `/backup`, `create_backup` (src/main.py lines 953–984): no allow-list
check; reads the cache and exports it. -/
def create_backup_entry (_allowedUsers : List String) (_uid : String)
    (st : BotState) (now : Int) : EntryOutcome × BotState :=
  let fetched := get_cached_records st.cache now (st.ledger.drop 1)
  (.proceeded, { st with cache := fetched.2.1 })

/-- The `confirm_` branch of `handle_callback_query` (src/main.py lines
583–635) as an entry point: the callback handler performs NO allow-list
check before dispatching, so any caller's `confirm_clear_yes` runs
`clear_table`. -/
def handle_callback_confirm_entry (_allowedUsers : List String)
    (_uid : String) (data : String) (st : BotState) :
    EntryOutcome × ConfirmOutcome × BotState :=
  let r := handle_confirm data st
  (.proceeded, r.1, r.2)

/-- A concrete cold-cache state used by the C7 counterexample. -/
def st7 : BotState :=
  ⟨[headerRow, row60000], [], none, [], ⟨none, none⟩⟩

/-- Claim C7 (counterexample): user `"2"` is not in the allow-list
`["1"]` (the gate, where present, rejects this caller), yet `/search`
proceeds: the query engine runs, returns the matching records, and the
cache — shared state — is mutated by the fetch. So not every entry point
of the command surface rejects non-members before core components run. -/
theorem search_entry_ungated_counterexample :
    pyGateRejects ["1"] "2" = true ∧
    advanced_search_entry ["1"] "2" [">100"] (fun _ => true) st7 0
      = (.proceeded,
         { st7 with cache := ⟨some [row60000], some 0⟩ },
         some (Except.ok [row60000])) ∧
    ({ st7 with cache := ⟨some [row60000], some 0⟩ } : BotState) ≠ st7 := by
  refine ⟨by decide, by rfl, by decide⟩

/-- Claim C7 (amended): only the `start`, free-text, voice and
`clear_table` entry points check the caller-supplied allow-list and
reject non-members before anything else runs; the `search`, `history`,
`analytics`, `backup` and button-callback entry points perform no
allow-list check at all and run their core logic (cache reads, query
engine, even a confirmed `clear_table`) for any caller. -/
theorem allowlist_gate_coverage :
    (∀ (allowedUsers : List String) (uid : String),
      pyGateRejects allowedUsers uid = true →
      start_entry allowedUsers uid = .rejected ∧
      handle_message_entry allowedUsers uid = .rejected ∧
      handle_voice_entry allowedUsers uid = .rejected ∧
      clear_table_command_entry allowedUsers uid = .rejected) ∧
    (∀ (allowedUsers : List String) (uid : String) (args : List String)
        (rowMatch : Row → Bool) (st : BotState) (now : Int),
      (advanced_search_entry allowedUsers uid args rowMatch st now).1
        = .proceeded) ∧
    (∀ (allowedUsers : List String) (uid : String) (st : BotState) (now : Int),
      (show_context_history_entry allowedUsers uid st now).1 = .proceeded) ∧
    (∀ (allowedUsers : List String) (uid : String) (st : BotState) (now : Int),
      (show_analytics_entry allowedUsers uid st now).1 = .proceeded) ∧
    (∀ (allowedUsers : List String) (uid : String) (st : BotState) (now : Int),
      (create_backup_entry allowedUsers uid st now).1 = .proceeded) ∧
    (∀ (allowedUsers : List String) (uid data : String) (st : BotState),
      (handle_callback_confirm_entry allowedUsers uid data st).1
        = .proceeded ∧
      (handle_callback_confirm_entry allowedUsers uid "confirm_clear_yes"
          st).2.2.ledger = (clear_table st).2.ledger) := by
  refine ⟨?_, ?_, ?_, ?_, ?_, ?_⟩
  · intro allowedUsers uid h
    exact ⟨by simp [start_entry, h], by simp [handle_message_entry, h],
      by simp [handle_voice_entry, h], by simp [clear_table_command_entry, h]⟩
  · intro allowedUsers uid args rowMatch st now
    unfold advanced_search_entry
    by_cases h : args.isEmpty <;> simp [h]
  · intro allowedUsers uid st now; rfl
  · intro allowedUsers uid st now; rfl
  · intro allowedUsers uid st now; rfl
  · intro allowedUsers uid data st
    exact ⟨rfl, rfl⟩

/-- Claim C7 witness: the gated entries all reject the concrete
non-member `"2"` of allow-list `["1"]`. -/
theorem allowlist_gate_coverage_witness :
    pyGateRejects ["1"] "2" = true ∧
    (start_entry ["1"] "2" = .rejected ∧
     handle_message_entry ["1"] "2" = .rejected ∧
     handle_voice_entry ["1"] "2" = .rejected ∧
     clear_table_command_entry ["1"] "2" = .rejected) :=
  ⟨by decide, allowlist_gate_coverage.1 ["1"] "2" (by decide)⟩

end PaoloFin
